import Mathlib

/-!
Shallow embedding of the galaxy point-cloud generator in `src/script.js`.

The generator `generateGalaxy` consumes the ambient random source
(`Math.random()`) strictly left-to-right; per particle `i` it performs
exactly seven draws, in this order:
  draw `7*i`   : the radius draw (`const radius = Math.random() * parameters.radius`)
  draw `7*i+1` : the base of `Math.pow` for `randomX`
  draw `7*i+2` : the sign draw for `randomX` (`Math.random() < 0.5 ? 1 : -1`)
  draw `7*i+3` : the base of `Math.pow` for `randomY`
  draw `7*i+4` : the sign draw for `randomY`
  draw `7*i+5` : the base of `Math.pow` for `randomZ`
  draw `7*i+6` : the sign draw for `randomZ`
We model the random source as a stream `rnd : ℕ → ℝ` indexed by call
number; `Math.random()` returns values in `[0, 1)`, which becomes the
hypothesis `∀ n, 0 ≤ rnd n ∧ rnd n < 1` where a claim needs it.
JavaScript numbers are modelled by `ℝ` (the spec's claims are about the
exact formulas, not float rounding), `Math.pow` by `Real.rpow`,
`Math.cos`/`Math.sin`/`Math.PI` by `Real.cos`/`Real.sin`/`Real.pi`.
-/

/-- An RGB color; mirrors `THREE.Color` as used by the script (three
channels, no clamping anywhere on the code path used here). -/
@[ext]
structure Color where
  r : ℝ
  g : ℝ
  b : ℝ

/-- `THREE.Color.prototype.lerp(color, alpha)`:
`this.r += (color.r - this.r) * alpha` and likewise for `g`, `b`.
The script calls it on a clone, so we model it functionally. -/
def Color.lerp (c : Color) (target : Color) (alpha : ℝ) : Color :=
  ⟨c.r + (target.r - c.r) * alpha,
   c.g + (target.g - c.g) * alpha,
   c.b + (target.b - c.b) * alpha⟩

/-- The `parameters` object of the script (colors already parsed to RGB). -/
structure Parameters where
  count : ℕ
  size : ℝ
  radius : ℝ
  branches : ℕ
  spin : ℝ
  randomness : ℝ
  randomnessPower : ℝ
  insideColor : Color
  outsideColor : Color

/-- `(Math.random() < 0.5 ? 1 : -1)` applied to a sign draw `u`. -/
noncomputable def randomSign (u : ℝ) : ℝ :=
  if u < 1/2 then 1 else -1

/-- `const radius = Math.random() * parameters.radius` for particle `i`
(the radius draw is call `7*i` of the random source). -/
noncomputable def radiusOf (rnd : ℕ → ℝ) (p : Parameters) (i : ℕ) : ℝ :=
  rnd (7*i) * p.radius

/-- `const spinAngle = radius * parameters.spin`. -/
noncomputable def spinAngleOf (rnd : ℕ → ℝ) (p : Parameters) (i : ℕ) : ℝ :=
  radiusOf rnd p i * p.spin

/-- `const branchAngle = (i % parameters.branches) / parameters.branches * Math.PI * 2`. -/
noncomputable def branchAngleOf (p : Parameters) (i : ℕ) : ℝ :=
  ((i % p.branches : ℕ) : ℝ) / (p.branches : ℝ) * Real.pi * 2

/-- `const randomX = Math.pow(Math.random(), parameters.randomnessPower)
* (Math.random() < 0.5 ? 1 : -1) * parameters.randomness * radius`. -/
noncomputable def randomXOf (rnd : ℕ → ℝ) (p : Parameters) (i : ℕ) : ℝ :=
  rnd (7*i+1) ^ p.randomnessPower * randomSign (rnd (7*i+2))
    * p.randomness * radiusOf rnd p i

/-- `const randomY = ...` (same shape as `randomX`, draws `7*i+3`, `7*i+4`). -/
noncomputable def randomYOf (rnd : ℕ → ℝ) (p : Parameters) (i : ℕ) : ℝ :=
  rnd (7*i+3) ^ p.randomnessPower * randomSign (rnd (7*i+4))
    * p.randomness * radiusOf rnd p i

/-- `const randomZ = ...` (same shape as `randomX`, draws `7*i+5`, `7*i+6`). -/
noncomputable def randomZOf (rnd : ℕ → ℝ) (p : Parameters) (i : ℕ) : ℝ :=
  rnd (7*i+5) ^ p.randomnessPower * randomSign (rnd (7*i+6))
    * p.randomness * radiusOf rnd p i

/-- The three entries the loop body writes into `positions` for particle `i`:
`positions[i3] = Math.cos(branchAngle + spinAngle) * radius + randomX`,
`positions[i3 + 1] = randomY`,
`positions[i3 + 2] = Math.sin(branchAngle + spinAngle) * radius + randomZ`. -/
noncomputable def positionChunk (rnd : ℕ → ℝ) (p : Parameters) (i : ℕ) : List ℝ :=
  [Real.cos (branchAngleOf p i + spinAngleOf rnd p i) * radiusOf rnd p i + randomXOf rnd p i,
   randomYOf rnd p i,
   Real.sin (branchAngleOf p i + spinAngleOf rnd p i) * radiusOf rnd p i + randomZOf rnd p i]

/-- `const mixedColor = colorInside.clone(); mixedColor.lerp(colorOutside,
radius / parameters.radius)` for particle `i`. -/
noncomputable def mixedColorOf (rnd : ℕ → ℝ) (p : Parameters) (i : ℕ) : Color :=
  p.insideColor.lerp p.outsideColor (radiusOf rnd p i / p.radius)

/-- The three entries the loop body writes into `colors` for particle `i`:
`colors[i3] = mixedColor.r`, `colors[i3+1] = mixedColor.g`,
`colors[i3+2] = mixedColor.b`. -/
noncomputable def colorChunk (rnd : ℕ → ℝ) (p : Parameters) (i : ℕ) : List ℝ :=
  [(mixedColorOf rnd p i).r, (mixedColorOf rnd p i).g, (mixedColorOf rnd p i).b]

/-- The filled buffer after the loop `for (let i = 0; i < parameters.count; i++)`:
iteration `i` writes its three values at slots `3*i .. 3*i+2`, i.e. appends
its chunk after the chunks of iterations `0 .. i-1`. -/
noncomputable def buildChunks (f : ℕ → List ℝ) : ℕ → List ℝ
  | 0 => []
  | n+1 => buildChunks f n ++ f n

/-- The pure core of `generateGalaxy`: the `positions` and `colors` arrays
(both allocated with `parameters.count * 3` entries and filled by the loop). -/
noncomputable def generateGalaxy (rnd : ℕ → ℝ) (p : Parameters) : List ℝ × List ℝ :=
  (buildChunks (positionChunk rnd p) p.count,
   buildChunks (colorChunk rnd p) p.count)

/-!
State model for the regeneration/disposal part of `generateGalaxy`
(the module-level `let geometry / material / points` variables, the scene,
and the `if (points !== null) { geometry.dispose(); material.dispose();
scene.remove(points); }` prologue followed by construction and
`scene.add(points)`). Objects are identified by allocation ids (ℕ);
`nextId` is the allocation counter. -/
structure GalaxyState where
  sceneChildren : List ℕ
  points : Option ℕ
  geometry : Option ℕ
  material : Option ℕ
  disposedGeometries : List ℕ
  disposedMaterials : List ℕ
  nextId : ℕ

/-- `scene.remove(obj)`: removes the object from the scene's children if
present. -/
def sceneRemove (children : List ℕ) (id : ℕ) : List ℕ :=
  children.erase id

/-- `scene.add(obj)`: appends the object to the scene's children. -/
def sceneAdd (children : List ℕ) (id : ℕ) : List ℕ :=
  children ++ [id]

/-- One invocation of `generateGalaxy` viewed as a state transition:
dispose/remove the previous galaxy when `points !== null`, then allocate a
new geometry, material and points object and add the points to the scene. -/
def generateGalaxyStep (s : GalaxyState) : GalaxyState :=
  let s1 : GalaxyState :=
    match s.points with
    | some pid =>
      { s with
        disposedGeometries := s.disposedGeometries ++ s.geometry.toList,
        disposedMaterials := s.disposedMaterials ++ s.material.toList,
        sceneChildren := sceneRemove s.sceneChildren pid }
    | none => s
  { sceneChildren := sceneAdd s1.sceneChildren (s1.nextId + 2),
    points := some (s1.nextId + 2),
    geometry := some s1.nextId,
    material := some (s1.nextId + 1),
    disposedGeometries := s1.disposedGeometries,
    disposedMaterials := s1.disposedMaterials,
    nextId := s1.nextId + 3 }

/-- The module initial state: `let geometry = null; let material = null;
let points = null` and an empty scene. -/
def initialState : GalaxyState :=
  ⟨[], none, none, none, [], [], 0⟩

/-! ### Helper lemmas about the buffer layout -/

lemma buildChunks_length (f : ℕ → List ℝ) (h3 : ∀ j, (f j).length = 3) :
    ∀ n, (buildChunks f n).length = 3 * n := by
  intro n
  induction n with
  | zero => rfl
  | succ n ih =>
    simp [buildChunks, List.length_append, ih, h3 n]
    ring

lemma buildChunks_get? (f : ℕ → List ℝ) (h3 : ∀ j, (f j).length = 3) :
    ∀ n i k, i < n → k < 3 → (buildChunks f n).get? (3*i+k) = (f i).get? k := by
  intro n
  induction n with
  | zero => intro i k hi _; exact absurd hi (Nat.not_lt_zero i)
  | succ n ih =>
    intro i k hi hk
    rcases Nat.lt_succ_iff_lt_or_eq.mp hi with h | h
    · rw [buildChunks, List.get?_append]
      · exact ih i k h hk
      · rw [buildChunks_length f h3 n]
        omega
    · subst h
      rw [buildChunks, List.get?_append_right]
      · rw [buildChunks_length f h3 i]
        congr 1
        omega
      · rw [buildChunks_length f h3 i]
        omega

lemma positionChunk_length (rnd : ℕ → ℝ) (p : Parameters) :
    ∀ j, (positionChunk rnd p j).length = 3 :=
  fun _ => rfl

lemma colorChunk_length (rnd : ℕ → ℝ) (p : Parameters) :
    ∀ j, (colorChunk rnd p j).length = 3 :=
  fun _ => rfl

lemma randomSign_dichotomy (u : ℝ) : randomSign u = 1 ∨ randomSign u = -1 := by
  unfold randomSign
  split
  · exact Or.inl rfl
  · exact Or.inr rfl

/-- Concrete random stream used by witnesses: every draw returns `1/2`,
a legal value of `Math.random()`. -/
noncomputable def witRnd : ℕ → ℝ := fun _ => 1/2

/-- Concrete parameter set used by witnesses: the script's default
parameters with `count = 2` (insideColor `#ff6030`, outsideColor `#1b3984`). -/
noncomputable def witP : Parameters :=
  ⟨2, 0.01, 5, 3, 1, 0.2, 3, ⟨255/255, 96/255, 48/255⟩, ⟨27/255, 57/255, 132/255⟩⟩

/-- C1: for every particle index `i < count`, the generator stores
`x = cos(branchAngle + spinAngle) * radius_i + jitterX` at slot `3i`,
`y = jitterY` (no base term) at slot `3i+1`, and
`z = sin(branchAngle + spinAngle) * radius_i + jitterZ` at slot `3i+2`,
where `spinAngle = radius_i * spin` and each jitter term is
`u ^ randomnessPower` times a random sign (±1) times `randomness * radius_i`
for an independent uniform draw `u`. -/
theorem claim1_position_formula (rnd : ℕ → ℝ) (p : Parameters) (i : ℕ)
    (hi : i < p.count) :
    (generateGalaxy rnd p).1.get? (3*i) =
      some (Real.cos (branchAngleOf p i + spinAngleOf rnd p i) * radiusOf rnd p i
        + randomXOf rnd p i)
  ∧ (generateGalaxy rnd p).1.get? (3*i+1) = some (randomYOf rnd p i)
  ∧ (generateGalaxy rnd p).1.get? (3*i+2) =
      some (Real.sin (branchAngleOf p i + spinAngleOf rnd p i) * radiusOf rnd p i
        + randomZOf rnd p i)
  ∧ spinAngleOf rnd p i = radiusOf rnd p i * p.spin
  ∧ randomXOf rnd p i =
      rnd (7*i+1) ^ p.randomnessPower * randomSign (rnd (7*i+2))
        * p.randomness * radiusOf rnd p i
  ∧ randomYOf rnd p i =
      rnd (7*i+3) ^ p.randomnessPower * randomSign (rnd (7*i+4))
        * p.randomness * radiusOf rnd p i
  ∧ randomZOf rnd p i =
      rnd (7*i+5) ^ p.randomnessPower * randomSign (rnd (7*i+6))
        * p.randomness * radiusOf rnd p i
  ∧ (randomSign (rnd (7*i+2)) = 1 ∨ randomSign (rnd (7*i+2)) = -1)
  ∧ (randomSign (rnd (7*i+4)) = 1 ∨ randomSign (rnd (7*i+4)) = -1)
  ∧ (randomSign (rnd (7*i+6)) = 1 ∨ randomSign (rnd (7*i+6)) = -1) := by
  have h3 := positionChunk_length rnd p
  have g0 := buildChunks_get? _ h3 p.count i 0 hi (by norm_num)
  have g1 := buildChunks_get? _ h3 p.count i 1 hi (by norm_num)
  have g2 := buildChunks_get? _ h3 p.count i 2 hi (by norm_num)
  have e0 : (positionChunk rnd p i).get? 0 =
      some (Real.cos (branchAngleOf p i + spinAngleOf rnd p i) * radiusOf rnd p i
        + randomXOf rnd p i) := rfl
  have e1 : (positionChunk rnd p i).get? 1 = some (randomYOf rnd p i) := rfl
  have e2 : (positionChunk rnd p i).get? 2 =
      some (Real.sin (branchAngleOf p i + spinAngleOf rnd p i) * radiusOf rnd p i
        + randomZOf rnd p i) := rfl
  refine ⟨?_, g1.trans e1, g2.trans e2, rfl, rfl, rfl, rfl,
    randomSign_dichotomy _, randomSign_dichotomy _, randomSign_dichotomy _⟩
  have g0' : (generateGalaxy rnd p).1.get? (3*i+0) =
      (positionChunk rnd p i).get? 0 := g0
  simpa using g0'.trans e0

theorem claim1_position_formula_witness :
    0 < witP.count
  ∧ ((generateGalaxy witRnd witP).1.get? (3*0) =
      some (Real.cos (branchAngleOf witP 0 + spinAngleOf witRnd witP 0)
          * radiusOf witRnd witP 0 + randomXOf witRnd witP 0)
  ∧ (generateGalaxy witRnd witP).1.get? (3*0+1) = some (randomYOf witRnd witP 0)
  ∧ (generateGalaxy witRnd witP).1.get? (3*0+2) =
      some (Real.sin (branchAngleOf witP 0 + spinAngleOf witRnd witP 0)
          * radiusOf witRnd witP 0 + randomZOf witRnd witP 0)
  ∧ spinAngleOf witRnd witP 0 = radiusOf witRnd witP 0 * witP.spin
  ∧ randomXOf witRnd witP 0 =
      witRnd (7*0+1) ^ witP.randomnessPower * randomSign (witRnd (7*0+2))
        * witP.randomness * radiusOf witRnd witP 0
  ∧ randomYOf witRnd witP 0 =
      witRnd (7*0+3) ^ witP.randomnessPower * randomSign (witRnd (7*0+4))
        * witP.randomness * radiusOf witRnd witP 0
  ∧ randomZOf witRnd witP 0 =
      witRnd (7*0+5) ^ witP.randomnessPower * randomSign (witRnd (7*0+6))
        * witP.randomness * radiusOf witRnd witP 0
  ∧ (randomSign (witRnd (7*0+2)) = 1 ∨ randomSign (witRnd (7*0+2)) = -1)
  ∧ (randomSign (witRnd (7*0+4)) = 1 ∨ randomSign (witRnd (7*0+4)) = -1)
  ∧ (randomSign (witRnd (7*0+6)) = 1 ∨ randomSign (witRnd (7*0+6)) = -1)) :=
  ⟨by decide, claim1_position_formula witRnd witP 0 (by decide)⟩

/-- C2: for every parameter set with positive `count`, one call yields
`positions` and `colors` both of length exactly `3 * count`, with particle
`i` occupying slots `3i, 3i+1, 3i+2` in both arrays. -/
theorem claim2_buffer_shape (rnd : ℕ → ℝ) (p : Parameters) (_hc : 0 < p.count) :
    (generateGalaxy rnd p).1.length = 3 * p.count
  ∧ (generateGalaxy rnd p).2.length = 3 * p.count
  ∧ ∀ i, i < p.count → ∀ k, k < 3 →
      (generateGalaxy rnd p).1.get? (3*i+k) = (positionChunk rnd p i).get? k
    ∧ (generateGalaxy rnd p).2.get? (3*i+k) = (colorChunk rnd p i).get? k := by
  refine ⟨buildChunks_length _ (positionChunk_length rnd p) p.count,
          buildChunks_length _ (colorChunk_length rnd p) p.count,
          fun i hi k hk => ⟨?_, ?_⟩⟩
  · exact buildChunks_get? _ (positionChunk_length rnd p) p.count i k hi hk
  · exact buildChunks_get? _ (colorChunk_length rnd p) p.count i k hi hk

theorem claim2_buffer_shape_witness :
    0 < witP.count
  ∧ ((generateGalaxy witRnd witP).1.length = 3 * witP.count
  ∧ (generateGalaxy witRnd witP).2.length = 3 * witP.count
  ∧ ∀ i, i < witP.count → ∀ k, k < 3 →
      (generateGalaxy witRnd witP).1.get? (3*i+k) = (positionChunk witRnd witP i).get? k
    ∧ (generateGalaxy witRnd witP).2.get? (3*i+k) = (colorChunk witRnd witP i).get? k) :=
  ⟨by decide, claim2_buffer_shape witRnd witP (by decide)⟩

/-- C3: for every particle index `i` and every draw of the random source,
`radius_i = uniform(0,1) * parameters.radius` satisfies
`0 ≤ radius_i ≤ parameters.radius`, given `parameters.radius ≥ 0`. -/
theorem claim3_radius_bounds (rnd : ℕ → ℝ) (p : Parameters)
    (hr : 0 ≤ p.radius) (hu : ∀ n, 0 ≤ rnd n ∧ rnd n < 1) (i : ℕ) :
    radiusOf rnd p i = rnd (7*i) * p.radius
  ∧ 0 ≤ radiusOf rnd p i
  ∧ radiusOf rnd p i ≤ p.radius := by
  refine ⟨rfl, mul_nonneg (hu (7*i)).1 hr, ?_⟩
  calc rnd (7*i) * p.radius ≤ 1 * p.radius :=
        mul_le_mul_of_nonneg_right (le_of_lt (hu (7*i)).2) hr
    _ = p.radius := one_mul _

theorem claim3_radius_bounds_witness :
    (0 ≤ witP.radius ∧ ∀ n, 0 ≤ witRnd n ∧ witRnd n < 1)
  ∧ (radiusOf witRnd witP 0 = witRnd (7*0) * witP.radius
  ∧ 0 ≤ radiusOf witRnd witP 0
  ∧ radiusOf witRnd witP 0 ≤ witP.radius) :=
  ⟨⟨by norm_num [witP], fun n => by norm_num [witRnd]⟩,
   claim3_radius_bounds witRnd witP (by norm_num [witP])
     (fun n => by norm_num [witRnd]) 0⟩

/-- C4: branch assignment is a deterministic round-robin over indices,
independent of the random source: for `branches ≥ 2`,
`branchAngle(i) = (i mod branches) / branches * 2π` and
`branchAngle(i + branches) = branchAngle(i)`. -/
theorem claim4_branch_round_robin (p : Parameters) (_hb : 2 ≤ p.branches) (i : ℕ) :
    branchAngleOf p i = ((i % p.branches : ℕ) : ℝ) / (p.branches : ℝ) * (2 * Real.pi)
  ∧ branchAngleOf p (i + p.branches) = branchAngleOf p i := by
  constructor
  · unfold branchAngleOf
    ring
  · unfold branchAngleOf
    rw [Nat.add_mod_right]

theorem claim4_branch_round_robin_witness :
    2 ≤ witP.branches
  ∧ (branchAngleOf witP 4 = ((4 % witP.branches : ℕ) : ℝ) / (witP.branches : ℝ) * (2 * Real.pi)
  ∧ branchAngleOf witP (4 + witP.branches) = branchAngleOf witP 4) :=
  ⟨by decide, claim4_branch_round_robin witP (by decide) 4⟩

/-- C5: the stored color of particle `i` is the linear interpolation from
`insideColor` to `outsideColor` by fraction `radius_i / parameters.radius`;
the interpolation yields `insideColor` at fraction 0 and `outsideColor` at
fraction 1 (exactly, in the real-number model). -/
theorem claim5_color_interpolation (rnd : ℕ → ℝ) (p : Parameters) (i : ℕ)
    (hi : i < p.count) :
    (generateGalaxy rnd p).2.get? (3*i) =
      some ((p.insideColor.lerp p.outsideColor (radiusOf rnd p i / p.radius)).r)
  ∧ (generateGalaxy rnd p).2.get? (3*i+1) =
      some ((p.insideColor.lerp p.outsideColor (radiusOf rnd p i / p.radius)).g)
  ∧ (generateGalaxy rnd p).2.get? (3*i+2) =
      some ((p.insideColor.lerp p.outsideColor (radiusOf rnd p i / p.radius)).b)
  ∧ (∀ c₁ c₂ : Color, c₁.lerp c₂ 0 = c₁)
  ∧ (∀ c₁ c₂ : Color, c₁.lerp c₂ 1 = c₂) := by
  have h3 := colorChunk_length rnd p
  have g0 := buildChunks_get? _ h3 p.count i 0 hi (by norm_num)
  have g1 := buildChunks_get? _ h3 p.count i 1 hi (by norm_num)
  have g2 := buildChunks_get? _ h3 p.count i 2 hi (by norm_num)
  have e0 : (colorChunk rnd p i).get? 0 =
      some ((p.insideColor.lerp p.outsideColor (radiusOf rnd p i / p.radius)).r) := rfl
  have e1 : (colorChunk rnd p i).get? 1 =
      some ((p.insideColor.lerp p.outsideColor (radiusOf rnd p i / p.radius)).g) := rfl
  have e2 : (colorChunk rnd p i).get? 2 =
      some ((p.insideColor.lerp p.outsideColor (radiusOf rnd p i / p.radius)).b) := rfl
  refine ⟨?_, g1.trans e1, g2.trans e2, ?_, ?_⟩
  · have g0' : (generateGalaxy rnd p).2.get? (3*i+0) =
        (colorChunk rnd p i).get? 0 := g0
    simpa using g0'.trans e0
  · intro c₁ c₂
    refine Color.ext ?_ ?_ ?_ <;> simp [Color.lerp]
  · intro c₁ c₂
    refine Color.ext ?_ ?_ ?_ <;> simp [Color.lerp]

theorem claim5_color_interpolation_witness :
    0 < witP.count
  ∧ ((generateGalaxy witRnd witP).2.get? (3*0) =
      some ((witP.insideColor.lerp witP.outsideColor (radiusOf witRnd witP 0 / witP.radius)).r)
  ∧ (generateGalaxy witRnd witP).2.get? (3*0+1) =
      some ((witP.insideColor.lerp witP.outsideColor (radiusOf witRnd witP 0 / witP.radius)).g)
  ∧ (generateGalaxy witRnd witP).2.get? (3*0+2) =
      some ((witP.insideColor.lerp witP.outsideColor (radiusOf witRnd witP 0 / witP.radius)).b)
  ∧ (∀ c₁ c₂ : Color, c₁.lerp c₂ 0 = c₁)
  ∧ (∀ c₁ c₂ : Color, c₁.lerp c₂ 1 = c₂)) :=
  ⟨by decide, claim5_color_interpolation witRnd witP 0 (by decide)⟩

/-- The concrete parameter set of the spec's scenario 6:
`count=4, branches=2, radius=1, spin=0, randomness=0`
(size, randomnessPower and colors are immaterial to the scenario). -/
noncomputable def p6 : Parameters :=
  ⟨4, 0.01, 1, 2, 0, 0, 3, ⟨1, 0, 0⟩, ⟨0, 0, 1⟩⟩

/-- C6: with `count=4, branches=2, radius=1, spin=0, randomness=0`, all
jitter terms are 0, particles 0 and 2 get `branchAngle = 0`, particles 1
and 3 get `branchAngle = π`, and the positions buffer is exactly the four
points `(cos θ · radius_i, 0, sin θ · radius_i)` with `θ = 0, π, 0, π`. -/
theorem claim6_concrete_scenario (rnd : ℕ → ℝ) :
    (∀ i, randomXOf rnd p6 i = 0 ∧ randomYOf rnd p6 i = 0 ∧ randomZOf rnd p6 i = 0)
  ∧ branchAngleOf p6 0 = 0
  ∧ branchAngleOf p6 1 = Real.pi
  ∧ branchAngleOf p6 2 = 0
  ∧ branchAngleOf p6 3 = Real.pi
  ∧ (generateGalaxy rnd p6).1 =
      [Real.cos 0 * radiusOf rnd p6 0, 0, Real.sin 0 * radiusOf rnd p6 0,
       Real.cos Real.pi * radiusOf rnd p6 1, 0, Real.sin Real.pi * radiusOf rnd p6 1,
       Real.cos 0 * radiusOf rnd p6 2, 0, Real.sin 0 * radiusOf rnd p6 2,
       Real.cos Real.pi * radiusOf rnd p6 3, 0, Real.sin Real.pi * radiusOf rnd p6 3] := by
  have hrand : p6.randomness = 0 := rfl
  have hjX : ∀ i, randomXOf rnd p6 i = 0 := fun i => by simp [randomXOf, hrand]
  have hjY : ∀ i, randomYOf rnd p6 i = 0 := fun i => by simp [randomYOf, hrand]
  have hjZ : ∀ i, randomZOf rnd p6 i = 0 := fun i => by simp [randomZOf, hrand]
  have hspin : ∀ i, spinAngleOf rnd p6 i = 0 := fun i => by
    simp [spinAngleOf, show p6.spin = 0 from rfl]
  have hb0 : branchAngleOf p6 0 = 0 := by simp [branchAngleOf]
  have hb1 : branchAngleOf p6 1 = Real.pi := by
    unfold branchAngleOf
    norm_num [show p6.branches = 2 from rfl]
    ring
  have hb2 : branchAngleOf p6 2 = 0 := by
    unfold branchAngleOf
    norm_num [show p6.branches = 2 from rfl]
  have hb3 : branchAngleOf p6 3 = Real.pi := by
    unfold branchAngleOf
    norm_num [show p6.branches = 2 from rfl]
    ring
  have c0 : positionChunk rnd p6 0 =
      [Real.cos 0 * radiusOf rnd p6 0, 0, Real.sin 0 * radiusOf rnd p6 0] := by
    simp [positionChunk, hjX, hjY, hjZ, hspin, hb0]
  have c1 : positionChunk rnd p6 1 =
      [Real.cos Real.pi * radiusOf rnd p6 1, 0, Real.sin Real.pi * radiusOf rnd p6 1] := by
    simp [positionChunk, hjX, hjY, hjZ, hspin, hb1]
  have c2 : positionChunk rnd p6 2 =
      [Real.cos 0 * radiusOf rnd p6 2, 0, Real.sin 0 * radiusOf rnd p6 2] := by
    simp [positionChunk, hjX, hjY, hjZ, hspin, hb2]
  have c3 : positionChunk rnd p6 3 =
      [Real.cos Real.pi * radiusOf rnd p6 3, 0, Real.sin Real.pi * radiusOf rnd p6 3] := by
    simp [positionChunk, hjX, hjY, hjZ, hspin, hb3]
  refine ⟨fun i => ⟨hjX i, hjY i, hjZ i⟩, hb0, hb1, hb2, hb3, ?_⟩
  calc (generateGalaxy rnd p6).1
      = [] ++ positionChunk rnd p6 0 ++ positionChunk rnd p6 1
          ++ positionChunk rnd p6 2 ++ positionChunk rnd p6 3 := rfl
    _ = _ := by rw [c0, c1, c2, c3]; rfl

/-! ### Regeneration / disposal invariant (C7) -/

/-- The state invariant after at least one invocation: exactly one points
object is in the scene (the current one), geometry and material are live,
and `n` geometries and `n` materials have been disposed so far. -/
def galaxyInvariant (s : GalaxyState) (n : ℕ) : Prop :=
  ∃ pid, s.points = some pid ∧ s.sceneChildren = [pid]
    ∧ (∃ g, s.geometry = some g) ∧ (∃ m, s.material = some m)
    ∧ s.disposedGeometries.length = n ∧ s.disposedMaterials.length = n

lemma galaxyInvariant_first : galaxyInvariant (generateGalaxyStep initialState) 0 :=
  ⟨2, rfl, rfl, ⟨0, rfl⟩, ⟨1, rfl⟩, rfl, rfl⟩

lemma galaxyInvariant_step (s : GalaxyState) (n : ℕ) (h : galaxyInvariant s n) :
    galaxyInvariant (generateGalaxyStep s) (n+1) := by
  obtain ⟨pid, hp, hsc, ⟨g, hg⟩, ⟨m, hm⟩, hdg, hdm⟩ := h
  refine ⟨s.nextId + 2, ?_, ?_, ⟨s.nextId, ?_⟩, ⟨s.nextId + 1, ?_⟩, ?_, ?_⟩ <;>
    simp [generateGalaxyStep, hp, hg, hm, hsc, sceneRemove, sceneAdd, hdg, hdm]

lemma galaxyInvariant_iterate (k : ℕ) :
    galaxyInvariant (generateGalaxyStep^[k+1] initialState) k := by
  induction k with
  | zero => simpa [Function.iterate_one] using galaxyInvariant_first
  | succ k ih =>
    rw [Function.iterate_succ_apply']
    exact galaxyInvariant_step _ _ ih

/-- C7: after `N ≥ 1` invocations of the regeneration routine starting
from the module initial state, exactly one renderable (the current points
object) is attached to the scene, and exactly `N - 1` geometries and
`N - 1` materials have been disposed — i.e. every invocation after the
first disposed the previous geometry and material and removed the previous
points object, and the release step was skipped exactly on the first
invocation. -/
theorem claim7_dispose_before_replace (N : ℕ) (hN : 1 ≤ N) :
    ∃ pid, (generateGalaxyStep^[N] initialState).points = some pid
      ∧ (generateGalaxyStep^[N] initialState).sceneChildren = [pid]
      ∧ (generateGalaxyStep^[N] initialState).disposedGeometries.length = N - 1
      ∧ (generateGalaxyStep^[N] initialState).disposedMaterials.length = N - 1 := by
  obtain ⟨k, rfl⟩ : ∃ k, N = k + 1 := ⟨N - 1, by omega⟩
  obtain ⟨pid, hp, hs, _, _, hdg, hdm⟩ := galaxyInvariant_iterate k
  exact ⟨pid, hp, hs, by simpa using hdg, by simpa using hdm⟩

theorem claim7_dispose_before_replace_witness :
    1 ≤ 3
  ∧ (∃ pid, (generateGalaxyStep^[3] initialState).points = some pid
      ∧ (generateGalaxyStep^[3] initialState).sceneChildren = [pid]
      ∧ (generateGalaxyStep^[3] initialState).disposedGeometries.length = 3 - 1
      ∧ (generateGalaxyStep^[3] initialState).disposedMaterials.length = 3 - 1) :=
  ⟨by norm_num, claim7_dispose_before_replace 3 (by norm_num)⟩

/-- Parameter set with `radius = 0` (otherwise the script's defaults),
used to exercise the unguarded division of C8. -/
noncomputable def p8 : Parameters :=
  ⟨2, 0.01, 0, 3, 1, 0.2, 3, ⟨255/255, 96/255, 48/255⟩, ⟨27/255, 57/255, 132/255⟩⟩

/-- C8: if `parameters.radius = 0`, then every `radius_i` is 0, the
color-interpolation fraction is the unguarded division `0 / 0` (NaN in
JavaScript's IEEE-754 arithmetic; the real-number model has no NaN, so the
undefinedness is expressed by numerator and denominator both vanishing),
and the generator feeds exactly this fraction to the interpolation with no
defensive clamp. -/
theorem claim8_zero_radius_unguarded (rnd : ℕ → ℝ) (p : Parameters)
    (h : p.radius = 0) (i : ℕ) :
    radiusOf rnd p i = 0
  ∧ p.radius = 0
  ∧ mixedColorOf rnd p i =
      p.insideColor.lerp p.outsideColor (radiusOf rnd p i / p.radius)
  ∧ radiusOf rnd p i / p.radius = 0 / (0:ℝ) := by
  have h0 : radiusOf rnd p i = 0 := by simp [radiusOf, h]
  exact ⟨h0, h, rfl, by rw [h0, h]⟩

theorem claim8_zero_radius_unguarded_witness :
    p8.radius = 0
  ∧ (radiusOf witRnd p8 0 = 0
  ∧ p8.radius = 0
  ∧ mixedColorOf witRnd p8 0 =
      p8.insideColor.lerp p8.outsideColor (radiusOf witRnd p8 0 / p8.radius)
  ∧ radiusOf witRnd p8 0 / p8.radius = 0 / (0:ℝ)) :=
  ⟨rfl, claim8_zero_radius_unguarded witRnd p8 rfl 0⟩

/-- Parameter set with `insideColor = outsideColor` (and `radius = 1`,
`count = 1`), used as the counterexample input for C9. -/
noncomputable def p9 : Parameters :=
  ⟨1, 0.01, 1, 3, 1, 0.2, 3, ⟨1/2, 1/2, 1/2⟩, ⟨1/2, 1/2, 1/2⟩⟩

/-- C9 counterexample: a call with `radius > 0` and a legal random stream
whose particle 0 nevertheless stores a color exactly equal to
`outsideColor` — because `insideColor = outsideColor`, the interpolation
is constant, so "no generated particle's stored color is ever exactly
outsideColor" fails as stated. -/
theorem claim9_counterexample :
    0 < p9.radius
  ∧ (∀ n, 0 ≤ witRnd n ∧ witRnd n < 1)
  ∧ radiusOf witRnd p9 0 < p9.radius
  ∧ mixedColorOf witRnd p9 0 = p9.outsideColor := by
  refine ⟨by norm_num [p9], fun n => by norm_num [witRnd], ?_, ?_⟩
  · norm_num [radiusOf, p9, witRnd]
  · refine Color.ext ?_ ?_ ?_ <;> simp [mixedColorOf, Color.lerp, p9]

/-- C9 (amended): for every call with `radius > 0`, draws in `[0,1)` and
`insideColor ≠ outsideColor`, each `radius_i` is strictly below `radius`,
the color fraction is strictly below 1, and the stored color is never
exactly `outsideColor`. -/
theorem claim9_outside_color_unreachable (rnd : ℕ → ℝ) (p : Parameters)
    (hr : 0 < p.radius) (hu : ∀ n, 0 ≤ rnd n ∧ rnd n < 1)
    (hc : p.insideColor ≠ p.outsideColor) (i : ℕ) :
    radiusOf rnd p i < p.radius
  ∧ radiusOf rnd p i / p.radius < 1
  ∧ mixedColorOf rnd p i ≠ p.outsideColor := by
  have hu2 := (hu (7*i)).2
  have hlt : radiusOf rnd p i < p.radius := by
    have := mul_lt_mul_of_pos_right hu2 hr
    simpa [radiusOf] using this
  have hfrac : radiusOf rnd p i / p.radius = rnd (7*i) := by
    unfold radiusOf
    exact mul_div_cancel_right₀ _ (ne_of_gt hr)
  have hfrac1 : radiusOf rnd p i / p.radius < 1 := by
    rw [hfrac]; exact hu2
  refine ⟨hlt, hfrac1, fun heq => hc ?_⟩
  have hchannel : ∀ a b : ℝ,
      a + (b - a) * (radiusOf rnd p i / p.radius) = b → a = b := by
    intro a b hab
    have hz : (b - a) * (1 - radiusOf rnd p i / p.radius) = 0 := by
      linear_combination -hab
    rcases mul_eq_zero.mp hz with h' | h'
    · exact (sub_eq_zero.mp h').symm
    · exfalso
      have : radiusOf rnd p i / p.radius = 1 := by linarith
      linarith [hfrac1]
  have hrch := congrArg Color.r heq
  have hgch := congrArg Color.g heq
  have hbch := congrArg Color.b heq
  simp only [mixedColorOf, Color.lerp] at hrch hgch hbch
  exact Color.ext (hchannel _ _ hrch) (hchannel _ _ hgch) (hchannel _ _ hbch)

theorem claim9_outside_color_unreachable_witness :
    (0 < witP.radius ∧ (∀ n, 0 ≤ witRnd n ∧ witRnd n < 1)
      ∧ witP.insideColor ≠ witP.outsideColor)
  ∧ (radiusOf witRnd witP 0 < witP.radius
  ∧ radiusOf witRnd witP 0 / witP.radius < 1
  ∧ mixedColorOf witRnd witP 0 ≠ witP.outsideColor) :=
  ⟨⟨by norm_num [witP], fun n => by norm_num [witRnd],
    by intro h; exact absurd (congrArg Color.r h) (by norm_num [witP])⟩,
   claim9_outside_color_unreachable witRnd witP (by norm_num [witP])
     (fun n => by norm_num [witRnd])
     (by intro h; exact absurd (congrArg Color.r h) (by norm_num [witP])) 0⟩

lemma jitter_abs_le (u s pw rand rad : ℝ) (hu0 : 0 ≤ u) (hu1 : u < 1)
    (hpw : 1 ≤ pw) (hrand : 0 ≤ rand) (hrad : 0 ≤ rad) :
    |u ^ pw * randomSign s * rand * rad| ≤ rand * rad := by
  have habs : |randomSign s| = 1 := by
    unfold randomSign
    split <;> simp
  have hpow0 : 0 ≤ u ^ pw := Real.rpow_nonneg hu0 pw
  have hpow1 : u ^ pw ≤ 1 := Real.rpow_le_one hu0 (le_of_lt hu1) (by linarith)
  rw [abs_mul, abs_mul, abs_mul, habs, abs_of_nonneg hpow0,
    abs_of_nonneg hrand, abs_of_nonneg hrad]
  nlinarith [mul_nonneg hrand hrad]

/-- C10: with `randomnessPower ≥ 1`, `randomness ≥ 0` and draws in `[0,1)`
(and `radius ≥ 0` as the data model requires), each jitter component is
bounded by `randomness * radius_i`; the stored y-coordinate at slot
`3i + 1` is exactly `jitterY` and bounded by `randomness * radius`; and
with `randomness = 0` every jitter term is exactly 0. -/
theorem claim10_jitter_bounds (rnd : ℕ → ℝ) (p : Parameters)
    (hu : ∀ n, 0 ≤ rnd n ∧ rnd n < 1) (hpw : 1 ≤ p.randomnessPower)
    (hrand : 0 ≤ p.randomness) (hrad : 0 ≤ p.radius)
    (i : ℕ) (hi : i < p.count) :
    |randomXOf rnd p i| ≤ p.randomness * radiusOf rnd p i
  ∧ |randomYOf rnd p i| ≤ p.randomness * radiusOf rnd p i
  ∧ |randomZOf rnd p i| ≤ p.randomness * radiusOf rnd p i
  ∧ (generateGalaxy rnd p).1.get? (3*i+1) = some (randomYOf rnd p i)
  ∧ |randomYOf rnd p i| ≤ p.randomness * p.radius
  ∧ (p.randomness = 0 →
      randomXOf rnd p i = 0 ∧ randomYOf rnd p i = 0 ∧ randomZOf rnd p i = 0) := by
  have hr0 : 0 ≤ radiusOf rnd p i := mul_nonneg (hu (7*i)).1 hrad
  have hrle : radiusOf rnd p i ≤ p.radius := by
    calc radiusOf rnd p i = rnd (7*i) * p.radius := rfl
      _ ≤ 1 * p.radius :=
          mul_le_mul_of_nonneg_right (le_of_lt (hu (7*i)).2) hrad
      _ = p.radius := one_mul _
  have hX : |randomXOf rnd p i| ≤ p.randomness * radiusOf rnd p i :=
    jitter_abs_le (rnd (7*i+1)) (rnd (7*i+2)) p.randomnessPower p.randomness
      (radiusOf rnd p i) (hu (7*i+1)).1 (hu (7*i+1)).2 hpw hrand hr0
  have hY : |randomYOf rnd p i| ≤ p.randomness * radiusOf rnd p i :=
    jitter_abs_le (rnd (7*i+3)) (rnd (7*i+4)) p.randomnessPower p.randomness
      (radiusOf rnd p i) (hu (7*i+3)).1 (hu (7*i+3)).2 hpw hrand hr0
  have hZ : |randomZOf rnd p i| ≤ p.randomness * radiusOf rnd p i :=
    jitter_abs_le (rnd (7*i+5)) (rnd (7*i+6)) p.randomnessPower p.randomness
      (radiusOf rnd p i) (hu (7*i+5)).1 (hu (7*i+5)).2 hpw hrand hr0
  have gy := buildChunks_get? _ (positionChunk_length rnd p) p.count i 1 hi (by norm_num)
  have ey : (positionChunk rnd p i).get? 1 = some (randomYOf rnd p i) := rfl
  refine ⟨hX, hY, hZ, gy.trans ey, ?_, fun h0 => ?_⟩
  · calc |randomYOf rnd p i| ≤ p.randomness * radiusOf rnd p i := hY
      _ ≤ p.randomness * p.radius := mul_le_mul_of_nonneg_left hrle hrand
  · exact ⟨by simp [randomXOf, h0], by simp [randomYOf, h0], by simp [randomZOf, h0]⟩

theorem claim10_jitter_bounds_witness :
    ((∀ n, 0 ≤ witRnd n ∧ witRnd n < 1) ∧ 1 ≤ witP.randomnessPower
      ∧ 0 ≤ witP.randomness ∧ 0 ≤ witP.radius ∧ 0 < witP.count)
  ∧ (|randomXOf witRnd witP 0| ≤ witP.randomness * radiusOf witRnd witP 0
  ∧ |randomYOf witRnd witP 0| ≤ witP.randomness * radiusOf witRnd witP 0
  ∧ |randomZOf witRnd witP 0| ≤ witP.randomness * radiusOf witRnd witP 0
  ∧ (generateGalaxy witRnd witP).1.get? (3*0+1) = some (randomYOf witRnd witP 0)
  ∧ |randomYOf witRnd witP 0| ≤ witP.randomness * witP.radius
  ∧ (witP.randomness = 0 →
      randomXOf witRnd witP 0 = 0 ∧ randomYOf witRnd witP 0 = 0
        ∧ randomZOf witRnd witP 0 = 0)) :=
  ⟨⟨fun n => by norm_num [witRnd], by norm_num [witP], by norm_num [witP],
    by norm_num [witP], by decide⟩,
   claim10_jitter_bounds witRnd witP (fun n => by norm_num [witRnd])
     (by norm_num [witP]) (by norm_num [witP]) (by norm_num [witP]) 0 (by decide)⟩
